import Mathlib

/-!
Verification of the FPL dashboard data pipeline (`src/fpl.py`).

The pipeline is embedded shallowly:

* pandas numeric columns that may hold IEEE NaN (the result of
  `pd.to_numeric(..., errors='coerce')` on malformed input) are modelled as
  `Option ℚ`, with `none` standing for a missing value (NaN); arithmetic on
  such columns propagates `none` exactly as IEEE arithmetic propagates NaN;
* data frames are lists of records, one record type per frame shape;
* `DataFrame.nlargest`, with its default `keep='first'` policy, is modelled as
  a stable descending sort followed by `take`; stability is expressed by
  sorting index-row pairs with the original position as tie-break, and
  missing sort keys order below every number (pandas places NaN last);
* `astype(int)` applied to a column holding a missing value raises in pandas;
  the team-rating display therefore returns `Except`.

Division of `points_per_million` by a zero price produces an IEEE non-finite
value in the source; the spec (§7) leaves that policy open and it is modelled
here as a missing value.
-/

set_option maxRecDepth 10000

namespace FPL

/-- Raw player row, the shape of one entry of the API's `elements` array after
the two `pd.to_numeric(..., errors='coerce')` casts of lines 18-19: a numeric
field whose raw value fails coercion is `none`. `form` and `ict_index` are
kept in the same coerced form (they are coerced later, at line 69). -/
structure RawPlayer where
  web_name : String
  team : Nat
  element_type : Nat
  now_cost : Int
  total_points : Int
  selected_by_percent : Option ℚ
  points_per_game : Option ℚ
  form : Option ℚ
  ict_index : Option ℚ
deriving DecidableEq

/-- Team row, the shape of one entry of the API's `teams` array. -/
structure Team where
  id : Nat
  name : String
  strength_attack_home : Int
  strength_attack_away : Int
  strength_defence_home : Int
  strength_defence_away : Int
deriving DecidableEq

/-- Enriched player row: the columns of the players frame after lines 18-27. -/
structure Player where
  web_name : String
  team : Nat
  element_type : Nat
  now_cost : Int
  total_points : Int
  selected_by_percent : Option ℚ
  points_per_game : Option ℚ
  form : Option ℚ
  ict_index : Option ℚ
  points_per_million : Option ℚ
  price_m : ℚ
  team_name : Option String
  strength_attack_home : Option Int
  strength_defence_away : Option Int
  position : Option String
deriving DecidableEq

/-- Line 27: the dict passed to `.map`; element types outside 1-4 map to NaN. -/
def elementTypeMap (e : Nat) : Option String :=
  if e = 1 then some "Goalkeeper"
  else if e = 2 then some "Defender"
  else if e = 3 then some "Midfielder"
  else if e = 4 then some "Forward"
  else none

/-- Line 25: the left merge on `team == id`, as a lookup of the first team row
with the matching id (team ids are unique in the API data). -/
def lookupTeam (teams : List Team) (tid : Nat) : Option Team :=
  teams.find? (fun t => t.id == tid)

/-- Lines 18-27 applied to one player row: derived columns, team join, and the
position mapping. Division by a zero price (line 20) yields an IEEE
non-finite value in the source, modelled as missing. -/
def enrich (teams : List Team) (p : RawPlayer) : Player where
  web_name := p.web_name
  team := p.team
  element_type := p.element_type
  now_cost := p.now_cost
  total_points := p.total_points
  selected_by_percent := p.selected_by_percent
  points_per_game := p.points_per_game
  form := p.form
  ict_index := p.ict_index
  points_per_million :=
    if p.now_cost = 0 then none
    else some ((p.total_points : ℚ) / ((p.now_cost : ℚ) / 10))
  price_m := (p.now_cost : ℚ) / 10
  team_name := (lookupTeam teams p.team).map Team.name
  strength_attack_home := (lookupTeam teams p.team).map Team.strength_attack_home
  strength_defence_away := (lookupTeam teams p.team).map Team.strength_defence_away
  position := elementTypeMap p.element_type

/-- The data-shaping part of `fetch_fpl_data` (lines 14-29): every raw player
row is enriched; no row is dropped. -/
def fetch_fpl_data (raws : List RawPlayer) (teams : List Team) : List Player :=
  raws.map (enrich teams)

/-- Lines 55-57: the boolean filter mask. `isin` on a missing value is false
in pandas, and so is `NaN <= x`. -/
def matchesFilters (positions teamNames : List String) (max_price : ℚ) (p : Player) : Bool :=
  (match p.position with
   | some s => positions.contains s
   | none => false)
  && (match p.team_name with
      | some s => teamNames.contains s
      | none => false)
  && decide (p.price_m ≤ max_price)

/-- Lines 54-63: apply the filter mask; if no row survives, fall back to the
full unfiltered table (the code also surfaces a warning in that case). -/
def filtered_players (players : List Player) (positions teamNames : List String)
    (max_price : ℚ) : List Player :=
  if (players.filter (matchesFilters positions teamNames max_price)).isEmpty then players
  else players.filter (matchesFilters positions teamNames max_price)

/-- Lines 66-71: the four columns of `numeric_columns` are coerced to numeric
and missing values are filled with 0; every other column is left untouched. -/
def fillNumeric (p : Player) : Player :=
  { p with
    ict_index := some (p.ict_index.getD 0)
    points_per_game := some (p.points_per_game.getD 0)
    form := some (p.form.getD 0)
    points_per_million := some (p.points_per_million.getD 0) }

/-- Missing-propagating binary arithmetic on coerced numeric columns: any
operation with a NaN operand yields NaN. -/
def omap2 (f : ℚ → ℚ → ℚ) : Option ℚ → Option ℚ → Option ℚ
  | some a, some b => some (f a b)
  | _, _ => none

/-- Line 79: `captaincy_score = form + ict_index`. -/
def captaincy_score (p : Player) : Option ℚ :=
  omap2 (· + ·) p.form p.ict_index

/-- Line 97: `differential_score = points_per_game * (1 - selected_by_percent / 100)`. -/
def differential_score (p : Player) : Option ℚ :=
  omap2 (· * ·) p.points_per_game
    (omap2 (· - ·) (some 1) (omap2 (· / ·) p.selected_by_percent (some 100)))

/-- Sort-key embedding: a missing value (NaN) orders below every number, so it
comes last in a descending sort, matching where pandas places NaN rows. -/
def nanBot : Option ℚ → WithBot ℚ
  | none => ⊥
  | some q => (q : WithBot ℚ)

/-- Ordering used by `nlargest` on index-row pairs: a row comes before another
when its key is larger, or the keys are equal and it appears earlier in the
table. The index tie-break expresses the `keep='first'` stability of pandas
`DataFrame.nlargest` (a mergesort-stable selection). -/
def nlargestRel (key : Player → Option ℚ) (a b : Nat × Player) : Prop :=
  nanBot (key b.2) < nanBot (key a.2) ∨
    (nanBot (key a.2) = nanBot (key b.2) ∧ a.1 ≤ b.1)

instance (key : Player → Option ℚ) : DecidableRel (nlargestRel key) := fun a b => by
  unfold nlargestRel
  infer_instance

/-- Pandas `DataFrame.nlargest n column` (default `keep='first'`) acting on
index-row pairs: rows ordered by the column descending, ties in original
order, missing values last, then the first `n` rows are taken. -/
def nlargestIdx (n : Nat) (key : Player → Option ℚ) (tbl : List Player) :
    List (Nat × Player) :=
  (List.insertionSort (nlargestRel key) tbl.enum).take n

/-- Pandas `DataFrame.nlargest n column` on a player table. -/
def nlargest (n : Nat) (key : Player → Option ℚ) (tbl : List Player) : List Player :=
  (nlargestIdx n key tbl).map Prod.snd

/-- Sortedness of a view in descending order of its scoring column, missing
values last. -/
def SortedDescBy (key : Player → Option ℚ) (l : List Player) : Prop :=
  l.Pairwise (fun a b => nanBot (key b) ≤ nanBot (key a))

/-- Line 80: the Captain Picks view, `nlargest(10, 'captaincy_score')`. -/
def top_captains (tbl : List Player) : List Player :=
  nlargest 10 captaincy_score tbl

/-- Line 98: the Differential Players view, `nlargest(10, 'differential_score')`. -/
def top_differentials (tbl : List Player) : List Player :=
  nlargest 10 differential_score tbl

/-- Line 115: the Set-Piece Takers view, `nlargest(10, 'ict_index')`. -/
def top_set_piece (tbl : List Player) : List Player :=
  nlargest 10 (fun p => p.ict_index) tbl

/-- Line 132: the Value Picks view, `nlargest(10, 'points_per_million')`. -/
def top_value_picks (tbl : List Player) : List Player :=
  nlargest 10 (fun p => p.points_per_million) tbl

/-- Fixture row, the shape of one entry of the fixtures endpoint. -/
structure Fixture where
  team_h : Nat
  team_a : Nat
  team_h_score : Int
  team_a_score : Int
  finished : Bool
deriving DecidableEq

/-- Line 171: only fixtures with `finished == True` are aggregated. -/
def completed_fixtures (fixtures : List Fixture) : List Fixture :=
  fixtures.filter (fun f => f.finished)

/-- One row of the `home_stats` / `away_stats` / `all_stats` frames. -/
structure StatRow where
  team : Nat
  goals_scored : Int
  goals_conceded : Int
deriving DecidableEq

/-- Lines 174-176: each finished fixture seen from the home side. -/
def home_stats (fixtures : List Fixture) : List StatRow :=
  (completed_fixtures fixtures).map
    (fun f => ⟨f.team_h, f.team_h_score, f.team_a_score⟩)

/-- Lines 179-181: each finished fixture seen from the away side. -/
def away_stats (fixtures : List Fixture) : List StatRow :=
  (completed_fixtures fixtures).map
    (fun f => ⟨f.team_a, f.team_a_score, f.team_h_score⟩)

/-- Line 184: `pd.concat([home_stats, away_stats])`. -/
def all_stats (fixtures : List Fixture) : List StatRow :=
  home_stats fixtures ++ away_stats fixtures

/-- Line 187: `groupby('team').sum()`: one row per team id occurring in
`all_stats`, ids in ascending order (pandas groupby sorts the keys), with
goals scored and conceded summed over the group. -/
def team_goals (fixtures : List Fixture) : List StatRow :=
  (List.insertionSort (· ≤ ·) ((all_stats fixtures).map StatRow.team).dedup).map
    (fun t =>
      ⟨t, (((all_stats fixtures).filter (fun r => r.team == t)).map StatRow.goals_scored).sum,
          (((all_stats fixtures).filter (fun r => r.team == t)).map StatRow.goals_conceded).sum⟩)

/-- One row of the goals aggregate after the name merge and the GD column. -/
structure GoalsRow where
  team : Nat
  teamName : Option String
  goals_scored : Int
  goals_conceded : Int
  gd : Int
deriving DecidableEq

/-- Lines 190-195: left-join team names onto the goals aggregate (`Team`
column, missing when the id resolves to no team) and compute
`GD = goals_scored - goals_conceded`. -/
def team_goals_merged (fixtures : List Fixture) (teams : List Team) : List GoalsRow :=
  (team_goals fixtures).map (fun r =>
    ⟨r.team, (teams.find? (fun t => t.id == r.team)).map Team.name,
     r.goals_scored, r.goals_conceded, r.goals_scored - r.goals_conceded⟩)

/-- Numpy `.round(0)`: round half to even (banker's rounding). -/
def roundHalfEven (q : ℚ) : Int :=
  if q - (⌊q⌋ : ℚ) < 1 / 2 then ⌊q⌋
  else if (1 : ℚ) / 2 < q - (⌊q⌋ : ℚ) then ⌊q⌋ + 1
  else if ⌊q⌋ % 2 = 0 then ⌊q⌋ else ⌊q⌋ + 1

/-- Line 199: `Attack = ((strength_attack_home + strength_attack_away) / 200).round(0).astype(int)`. -/
def attackRating (t : Team) : Int :=
  roundHalfEven (((t.strength_attack_home : ℚ) + (t.strength_attack_away : ℚ)) / 200)

/-- Line 200: `Defence = ((strength_defence_home + strength_defence_away) / 200).round(0).astype(int)`. -/
def defenceRating (t : Team) : Int :=
  roundHalfEven (((t.strength_defence_home : ℚ) + (t.strength_defence_away : ℚ)) / 200)

/-- One row of the frame after the merge of line 204: the `Team` column comes
from the goals side of the merge, so it is missing for a team without a goals
aggregate, as is the whole goals triple (scored, conceded, GD). -/
structure RatingRow where
  teamCol : Option String
  attack : Int
  defence : Int
  overall : Int
  goals : Option (Int × Int × Int)
deriving DecidableEq

/-- Lines 198-204: per-team ratings joined (left) with the goals aggregate by
team name. -/
def team_ratings (fixtures : List Fixture) (teams : List Team) : List RatingRow :=
  teams.map (fun t =>
    { teamCol := ((team_goals_merged fixtures teams).find?
        (fun r => r.teamName == some t.name)).bind GoalsRow.teamName
      attack := attackRating t
      defence := defenceRating t
      overall := attackRating t - defenceRating t
      goals := ((team_goals_merged fixtures teams).find?
        (fun r => r.teamName == some t.name)).map
          (fun r => (r.goals_scored, r.goals_conceded, r.gd)) })

/-- Sort key of line 218: goal difference, with a missing GD (NaN) ordering
below every number, hence last in the descending sort. -/
def gdBot (r : RatingRow) : WithBot Int :=
  match r.goals with
  | none => ⊥
  | some g => (g.2.2 : WithBot Int)

/-- Line 218: `sort_values(by='Goal Difference', ascending=False)`. -/
def sortByGD (rows : List RatingRow) : List RatingRow :=
  List.insertionSort (fun a b => gdBot b ≤ gdBot a) rows

/-- One row of the final displayed table (lines 207-226), after `astype(int)`. -/
structure DisplayRow where
  teamCol : Option String
  attack : Int
  defence : Int
  overall : Int
  goals_scored : Int
  goals_conceded : Int
  gd : Int
deriving DecidableEq

/-- Projection of one sorted row to a display row; only meaningful when the
goals triple is present (the `astype(int)` success case). -/
def displayRow (r : RatingRow) : DisplayRow :=
  ⟨r.teamCol, r.attack, r.defence, r.overall,
   (r.goals.getD (0, 0, 0)).1, (r.goals.getD (0, 0, 0)).2.1, (r.goals.getD (0, 0, 0)).2.2⟩

/-- Lines 207-226: select display columns, sort by Goal Difference descending,
and apply `astype(int)` to the goal columns; as in pandas, the conversion of
a column raises (`ValueError`) when any of its values is missing, so the
displayed table exists only when every team has a goals aggregate. -/
def team_ratings_display (fixtures : List Fixture) (teams : List Team) :
    Except String (List DisplayRow) :=
  if (sortByGD (team_ratings fixtures teams)).all (fun r => r.goals.isSome) then
    Except.ok ((sortByGD (team_ratings fixtures teams)).map displayRow)
  else Except.error "cannot convert non-finite values (NA or inf) to integer"

/-! Concrete data used to instantiate the theorems below. -/

/-- A raw player row with well-formed numeric fields. -/
def c1Raw : RawPlayer := ⟨"Saka", 1, 3, 50, 80, some 5, some 3, some 2, some 7⟩

/-- An enriched player row with literal derived columns. -/
def c2Player : Player :=
  ⟨"Saka", 1, 3, 50, 80, some 5, some 3, some 2, some 7, some 16, 5,
   some "Arsenal", some 1200, some 1100, some "Midfielder"⟩

/-- A raw player row whose `points_per_game` failed numeric coercion while
`selected_by_percent` coerced to 50. -/
def c3Raw : RawPlayer := ⟨"Rice", 1, 3, 50, 80, some 50, none, some 2, some 7⟩

/-- The team row `c3Raw` joins to. -/
def c3Team : Team := ⟨1, "Arsenal", 1200, 1100, 1150, 1050⟩

/-- A team whose id matches no player and that has no finished fixture. -/
def c5Team : Team := ⟨1, "Arsenal", 1200, 1100, 1150, 1050⟩

/-- A raw player row whose team id (7) resolves to no team row. -/
def c5Raw : RawPlayer := ⟨"Ghost", 7, 2, 40, 30, some 1, some 2, some 3, some 4⟩

/-- Fixtures of the C6 scenario: team 1 (A) plays home 3-1 and away 0-2,
team 2 (B) plays home 1-0; the opponents are teams 3 (C) and 4 (D); the last
fixture is not finished and must be ignored. -/
def c6Fixtures : List Fixture :=
  [⟨1, 3, 3, 1, true⟩, ⟨3, 1, 2, 0, true⟩, ⟨2, 4, 1, 0, true⟩, ⟨1, 2, 9, 9, false⟩]

/-- The four teams of the C6 scenario. -/
def c6Teams : List Team :=
  [⟨1, "A", 100, 100, 100, 100⟩, ⟨2, "B", 100, 100, 100, 100⟩,
   ⟨3, "C", 100, 100, 100, 100⟩, ⟨4, "D", 100, 100, 100, 100⟩]

/-- The rating rows of the C6 scenario before the GD sort. -/
def c6Ratings : List RatingRow :=
  [⟨some "A", 1, 1, 0, some (3, 3, 0)⟩, ⟨some "B", 1, 1, 0, some (1, 0, 1)⟩,
   ⟨some "C", 1, 1, 0, some (3, 3, 0)⟩, ⟨some "D", 1, 1, 0, some (0, 1, -1)⟩]

/-- The displayed team-rating table of the C6 scenario: team B (GD 1) ranks
above team A (GD 0). -/
def c6Display : List DisplayRow :=
  [⟨some "B", 1, 1, 0, 1, 0, 1⟩, ⟨some "A", 1, 1, 0, 3, 3, 0⟩,
   ⟨some "C", 1, 1, 0, 3, 3, 0⟩, ⟨some "D", 1, 1, 0, 0, 1, -1⟩]

/-- A raw player row with the invalid element type 5. -/
def c8Raw : RawPlayer := ⟨"Odd", 1, 5, 50, 80, some 5, some 3, some 2, some 7⟩

/-- Two enriched player rows with equal `ict_index`, for the tie-break witness. -/
def c10A : Player :=
  ⟨"First", 1, 3, 50, 80, some 5, some 3, some 2, some 7, some 16, 5,
   some "Arsenal", some 1200, some 1100, some "Midfielder"⟩

/-- Second row of the tie; it shares the `ict_index` of `c10A`. -/
def c10B : Player :=
  ⟨"Second", 2, 4, 60, 90, some 6, some 4, some 3, some 7, some 15, 6,
   some "Villa", some 1000, some 1000, some "Forward"⟩

/-! Theorems. -/

/-- C1: for every row of the enriched player table, `price_m` equals
`now_cost / 10`, and whenever `price_m > 0`, `points_per_million` equals
`total_points / price_m`. -/
theorem c1_price_and_points_per_million (teams : List Team) (raws : List RawPlayer)
    (p : Player) (hp : p ∈ fetch_fpl_data raws teams) :
    p.price_m = (p.now_cost : ℚ) / 10 ∧
      (0 < p.price_m →
        p.points_per_million = some ((p.total_points : ℚ) / p.price_m)) := by
  obtain ⟨r, hr, rfl⟩ := List.mem_map.mp hp
  refine ⟨rfl, fun hpos => ?_⟩
  simp only [enrich] at hpos ⊢
  have hnc : ¬r.now_cost = 0 := by
    intro h
    rw [h] at hpos
    norm_num at hpos
  simp [hnc]

/-- Witness for C1 at the concrete row `c1Raw` (price 5.0, 80 points). -/
theorem c1_witness :
    (enrich [] c1Raw).price_m = ((enrich [] c1Raw).now_cost : ℚ) / 10 ∧
      (enrich [] c1Raw).points_per_million =
        some (((enrich [] c1Raw).total_points : ℚ) / (enrich [] c1Raw).price_m) := by
  have h := c1_price_and_points_per_million [] [c1Raw] (enrich [] c1Raw)
    (by simp [fetch_fpl_data])
  exact ⟨h.1, h.2 (by norm_num [enrich, c1Raw])⟩

/-- C2 as amended: the Filter Stage returns exactly the rows matching the
three constraints; when no row matches it returns the full unfiltered table;
the result is empty only when the input table itself is empty. -/
theorem c2_filter_contract (tbl : List Player) (pos tms : List String) (mp : ℚ) :
    (tbl.filter (matchesFilters pos tms mp) ≠ [] →
      ∀ p, p ∈ filtered_players tbl pos tms mp ↔
        p ∈ tbl ∧ matchesFilters pos tms mp p = true) ∧
    (tbl.filter (matchesFilters pos tms mp) = [] →
      filtered_players tbl pos tms mp = tbl) ∧
    (tbl ≠ [] → filtered_players tbl pos tms mp ≠ []) := by
  refine ⟨fun h p => ?_, fun h => ?_, fun h => ?_⟩
  · have he : filtered_players tbl pos tms mp = tbl.filter (matchesFilters pos tms mp) := by
      simp [filtered_players, h]
    rw [he, List.mem_filter]
  · simp [filtered_players, h]
  · by_cases hf : tbl.filter (matchesFilters pos tms mp) = []
    · simpa [filtered_players, hf] using h
    · simp [filtered_players, hf]

/-- C2 counterexample to the unamended claim: on an empty enriched table the
empty-result fallback returns the table itself, which is empty, so the Filter
Stage does not always return a nonempty table. -/
theorem c2_counterexample :
    filtered_players (fetch_fpl_data [] []) ["Midfielder"] ["Arsenal"] 10 = [] := rfl

/-- Witness for C2: a matching row passes through, mismatching constraints
trigger the full-table fallback, and a nonempty input gives a nonempty output. -/
theorem c2_witness :
    (c2Player ∈ filtered_players [c2Player] ["Midfielder"] ["Arsenal"] 10 ↔
      c2Player ∈ [c2Player] ∧
        matchesFilters ["Midfielder"] ["Arsenal"] 10 c2Player = true) ∧
    filtered_players [c2Player] ["Goalkeeper"] ["Arsenal"] 10 = [c2Player] ∧
    filtered_players [c2Player] ["Midfielder"] ["Arsenal"] 10 ≠ [] :=
  ⟨(c2_filter_contract [c2Player] ["Midfielder"] ["Arsenal"] 10).1 (by decide) c2Player,
   (c2_filter_contract [c2Player] ["Goalkeeper"] ["Arsenal"] 10).2.1 (by decide),
   (c2_filter_contract [c2Player] ["Midfielder"] ["Arsenal"] 10).2.2 (by decide)⟩

/-- C3 counterexample: a row whose `points_per_game` failed numeric coercion
gets a `differential_score` of 0, not a missing value, because
`points_per_game` is one of the four zero-filled columns. -/
theorem c3_counterexample :
    differential_score (fillNumeric (enrich [c3Team] c3Raw)) = some 0 ∧
      differential_score (fillNumeric (enrich [c3Team] c3Raw)) ≠ none := by
  have h : differential_score (fillNumeric (enrich [c3Team] c3Raw)) = some 0 := by
    simp [differential_score, fillNumeric, enrich, c3Raw, omap2]
  exact ⟨h, by simp [h]⟩

/-- C3 as amended: a missing `selected_by_percent` propagates to a missing
`differential_score`; a missing `points_per_game` is zero-filled (it is one
of the four §4.3 columns), so with a present `selected_by_percent` the
derived score is 0, not missing; and the fill step changes no column other
than the four named ones. -/
theorem c3_missing_value_policy (p : Player) :
    (p.selected_by_percent = none → differential_score (fillNumeric p) = none) ∧
    (∀ s, p.selected_by_percent = some s → p.points_per_game = none →
      differential_score (fillNumeric p) = some 0) ∧
    (fillNumeric p).selected_by_percent = p.selected_by_percent ∧
    (fillNumeric p).web_name = p.web_name ∧
    (fillNumeric p).team = p.team ∧
    (fillNumeric p).element_type = p.element_type ∧
    (fillNumeric p).now_cost = p.now_cost ∧
    (fillNumeric p).total_points = p.total_points ∧
    (fillNumeric p).price_m = p.price_m ∧
    (fillNumeric p).team_name = p.team_name ∧
    (fillNumeric p).strength_attack_home = p.strength_attack_home ∧
    (fillNumeric p).strength_defence_away = p.strength_defence_away ∧
    (fillNumeric p).position = p.position := by
  refine ⟨fun h => ?_, fun s hs hg => ?_,
    rfl, rfl, rfl, rfl, rfl, rfl, rfl, rfl, rfl, rfl, rfl⟩
  · simp [differential_score, fillNumeric, omap2, h]
  · simp [differential_score, fillNumeric, omap2, hs, hg]

/-- Witness for C3 at two concrete rows: one with a malformed
`selected_by_percent`, one (`c3Raw`) with a malformed `points_per_game`. -/
theorem c3_witness :
    differential_score
      (fillNumeric (enrich [] ⟨"X", 1, 1, 40, 10, none, some 2, some 1, some 1⟩)) = none ∧
    differential_score (fillNumeric (enrich [c3Team] c3Raw)) = some 0 ∧
    (fillNumeric (enrich [c3Team] c3Raw)).selected_by_percent =
      (enrich [c3Team] c3Raw).selected_by_percent :=
  ⟨(c3_missing_value_policy _).1 (by simp [enrich]),
   (c3_missing_value_policy _).2.1 50 (by simp [enrich, c3Raw]) (by simp [enrich, c3Raw]),
   (c3_missing_value_policy _).2.2.1⟩

/-- C8: every enriched row's `position` is one of the four position names or
missing, and it is missing exactly when `element_type` is outside 1-4. -/
theorem c8_position_mapping (teams : List Team) (raws : List RawPlayer)
    (p : Player) (hp : p ∈ fetch_fpl_data raws teams) :
    (∀ s, p.position = some s →
      s ∈ ["Goalkeeper", "Defender", "Midfielder", "Forward"]) ∧
    (p.position = none ↔
      ¬(p.element_type = 1 ∨ p.element_type = 2 ∨ p.element_type = 3 ∨
        p.element_type = 4)) := by
  obtain ⟨r, hr, rfl⟩ := List.mem_map.mp hp
  constructor
  · intro s hs
    simp only [enrich, elementTypeMap] at hs
    split_ifs at hs <;> simp_all
  · simp only [enrich, elementTypeMap]
    split_ifs <;> simp_all

/-- Witness for C8 at `c8Raw`, whose element type 5 is invalid. -/
theorem c8_witness :
    (∀ s, (enrich [] c8Raw).position = some s →
      s ∈ ["Goalkeeper", "Defender", "Midfielder", "Forward"]) ∧
    ((enrich [] c8Raw).position = none ↔
      ¬((enrich [] c8Raw).element_type = 1 ∨ (enrich [] c8Raw).element_type = 2 ∨
        (enrich [] c8Raw).element_type = 3 ∨ (enrich [] c8Raw).element_type = 4)) :=
  c8_position_mapping [] [c8Raw] (enrich [] c8Raw) (by simp [fetch_fpl_data])

/-- C9: the Filter Stage, fallback included, is idempotent. -/
theorem c9_filter_idempotent (tbl : List Player) (pos tms : List String) (mp : ℚ) :
    filtered_players (filtered_players tbl pos tms mp) pos tms mp =
      filtered_players tbl pos tms mp := by
  by_cases h : tbl.filter (matchesFilters pos tms mp) = []
  · simp [filtered_players, h]
  · have hff : (tbl.filter (matchesFilters pos tms mp)).filter (matchesFilters pos tms mp)
        = tbl.filter (matchesFilters pos tms mp) := by
      rw [List.filter_filter]
      exact List.filter_congr fun x _ => Bool.and_self _
    simp only [filtered_players, h]
    simp [hff, h]

/-- The nlargest ordering is total. -/
theorem nlargestRel_total (key : Player → Option ℚ) (a b : Nat × Player) :
    nlargestRel key a b ∨ nlargestRel key b a := by
  unfold nlargestRel
  rcases lt_trichotomy (nanBot (key a.2)) (nanBot (key b.2)) with h | h | h
  · exact Or.inr (Or.inl h)
  · rcases Nat.le_total a.1 b.1 with hn | hn
    · exact Or.inl (Or.inr ⟨h, hn⟩)
    · exact Or.inr (Or.inr ⟨h.symm, hn⟩)
  · exact Or.inl (Or.inl h)

/-- The nlargest ordering is transitive. -/
theorem nlargestRel_trans (key : Player → Option ℚ) (a b c : Nat × Player)
    (hab : nlargestRel key a b) (hbc : nlargestRel key b c) : nlargestRel key a c := by
  unfold nlargestRel at *
  rcases hab with hab | ⟨hab, hab2⟩ <;> rcases hbc with hbc | ⟨hbc, hbc2⟩
  · exact Or.inl (lt_trans hbc hab)
  · exact Or.inl (hbc ▸ hab)
  · exact Or.inl (lt_of_lt_of_le hbc (le_of_eq hab.symm))
  · exact Or.inr ⟨hab.trans hbc, le_trans hab2 hbc2⟩

/-- The index-row pairs selected by nlargest are sorted by its ordering. -/
theorem nlargestIdx_sorted (n : Nat) (key : Player → Option ℚ) (tbl : List Player) :
    (nlargestIdx n key tbl).Pairwise (nlargestRel key) := by
  haveI : IsTotal (Nat × Player) (nlargestRel key) := ⟨nlargestRel_total key⟩
  haveI : IsTrans (Nat × Player) (nlargestRel key) := ⟨nlargestRel_trans key⟩
  exact List.Pairwise.sublist (List.take_sublist _ _) (List.sorted_insertionSort _ _)

/-- nlargest returns `min n` rows of the table. -/
theorem nlargest_length (n : Nat) (key : Player → Option ℚ) (tbl : List Player) :
    (nlargest n key tbl).length = min n tbl.length := by
  simp [nlargest, nlargestIdx]

/-- nlargest output is sorted descending in its scoring column. -/
theorem nlargest_sorted (n : Nat) (key : Player → Option ℚ) (tbl : List Player) :
    SortedDescBy key (nlargest n key tbl) := by
  unfold SortedDescBy nlargest
  rw [List.pairwise_map]
  refine (nlargestIdx_sorted n key tbl).imp ?_
  rintro a b (h | ⟨h, -⟩)
  · exact le_of_lt h
  · exact le_of_eq h.symm

/-- C4: each of the four top-10 views returns `min 10 k` rows on a table of
`k` rows (at most 10, and fewer than 10 only when the table has fewer), and
its rows are sorted descending in the view's scoring column. -/
theorem c4_top10_views (tbl : List Player) :
    ((top_captains tbl).length = min 10 tbl.length ∧
      SortedDescBy captaincy_score (top_captains tbl)) ∧
    ((top_differentials tbl).length = min 10 tbl.length ∧
      SortedDescBy differential_score (top_differentials tbl)) ∧
    ((top_set_piece tbl).length = min 10 tbl.length ∧
      SortedDescBy (fun p => p.ict_index) (top_set_piece tbl)) ∧
    ((top_value_picks tbl).length = min 10 tbl.length ∧
      SortedDescBy (fun p => p.points_per_million) (top_value_picks tbl)) :=
  ⟨⟨nlargest_length 10 captaincy_score tbl, nlargest_sorted 10 captaincy_score tbl⟩,
   ⟨nlargest_length 10 differential_score tbl, nlargest_sorted 10 differential_score tbl⟩,
   ⟨nlargest_length 10 _ tbl, nlargest_sorted 10 _ tbl⟩,
   ⟨nlargest_length 10 _ tbl, nlargest_sorted 10 _ tbl⟩⟩

/-- C10: every top-10 view selects via `nlargestIdx`, and nlargest breaks
ties by original row order: if two rows have equal keys and the later one is
selected, the earlier one is selected too, at an earlier output position. -/
theorem c10_stable_tie_break :
    (∀ tbl, top_captains tbl = (nlargestIdx 10 captaincy_score tbl).map Prod.snd) ∧
    (∀ tbl, top_differentials tbl =
      (nlargestIdx 10 differential_score tbl).map Prod.snd) ∧
    (∀ tbl, top_set_piece tbl =
      (nlargestIdx 10 (fun p => p.ict_index) tbl).map Prod.snd) ∧
    (∀ tbl, top_value_picks tbl =
      (nlargestIdx 10 (fun p => p.points_per_million) tbl).map Prod.snd) ∧
    ∀ (key : Player → Option ℚ) (n : Nat) (tbl : List Player) (i j : Nat)
      (hi : i < tbl.length) (hj : j < tbl.length), i < j →
      key tbl[i] = key tbl[j] →
      (j, tbl[j]) ∈ nlargestIdx n key tbl →
      ∃ (q p : Nat) (hq : q < (nlargestIdx n key tbl).length)
        (hp : p < (nlargestIdx n key tbl).length),
        q < p ∧ (nlargestIdx n key tbl)[q] = (i, tbl[i]) ∧
          (nlargestIdx n key tbl)[p] = (j, tbl[j]) := by
  refine ⟨fun _ => rfl, fun _ => rfl, fun _ => rfl, fun _ => rfl, ?_⟩
  intro key n tbl i j hi hj hij hkey hmem
  have hsorted : (List.insertionSort (nlargestRel key) tbl.enum).Pairwise
      (nlargestRel key) := by
    haveI : IsTotal (Nat × Player) (nlargestRel key) := ⟨nlargestRel_total key⟩
    haveI : IsTrans (Nat × Player) (nlargestRel key) := ⟨nlargestRel_trans key⟩
    exact List.sorted_insertionSort _ _
  have hmem_i : (i, tbl[i]) ∈ List.insertionSort (nlargestRel key) tbl.enum := by
    apply (List.perm_insertionSort _ _).mem_iff.mpr
    have hie : i < tbl.enum.length := by simpa using hi
    have he : tbl.enum[i] = (i, tbl[i]) := by simp
    exact he ▸ List.getElem_mem hie
  obtain ⟨p, hp, hpj⟩ := List.mem_iff_getElem.mp hmem
  obtain ⟨q, hq', hqi⟩ := List.mem_iff_getElem.mp hmem_i
  have hp_s : p < (List.insertionSort (nlargestRel key) tbl.enum).length := by
    have h2 : (nlargestIdx n key tbl).length
        ≤ (List.insertionSort (nlargestRel key) tbl.enum).length := by
      simp only [nlargestIdx, List.length_take]
      omega
    omega
  have hpj_s : (List.insertionSort (nlargestRel key) tbl.enum)[p] = (j, tbl[j]) := by
    rw [← hpj]
    exact (List.getElem_take _).symm
  have hqp : q < p := by
    by_contra hqp
    push_neg at hqp
    rcases eq_or_lt_of_le hqp with heq | hlt
    · subst heq
      have hji : (j, tbl[j]) = (i, tbl[i]) := hpj_s.symm.trans hqi
      have : j = i := congrArg Prod.fst hji
      omega
    · have hrel := List.pairwise_iff_getElem.mp hsorted p q hp_s hq' hlt
      rw [hpj_s, hqi] at hrel
      unfold nlargestRel at hrel
      rcases hrel with h | ⟨-, h2⟩
      · rw [hkey] at h
        exact lt_irrefl _ h
      · omega
  have hq_t : q < (nlargestIdx n key tbl).length := lt_trans hqp hp
  refine ⟨q, p, hq_t, hp, hqp, ?_, ?_⟩
  · show ((List.insertionSort (nlargestRel key) tbl.enum).take n)[q] = (i, tbl[i])
    rw [List.getElem_take]
    exact hqi
  · exact hpj

/-- C5: the player-side left join keeps rows with missing fields, but the
team-side claim fails on the code: with no finished fixture for `c5Team`,
the display computation raises (`astype(int)` on a missing value) instead of
keeping the row with missing goal statistics. -/
theorem c5_unresolved_join_divergence :
    (fetch_fpl_data [c5Raw] [c5Team]).map
        (fun p => (p.team_name, p.strength_attack_home, p.strength_defence_away))
      = [(none, none, none)] ∧
    (fetch_fpl_data [c5Raw] [c5Team]).length = 1 ∧
    team_ratings_display [] [c5Team] =
      Except.error "cannot convert non-finite values (NA or inf) to integer" :=
  ⟨rfl, rfl, rfl⟩

/-- A team whose two attack strengths are 100 has attack rating 1. -/
theorem attackRating_of_100 (i : Nat) (nm : String) (d1 d2 : Int) :
    attackRating ⟨i, nm, 100, 100, d1, d2⟩ = 1 := by
  have h : ((100 : ℚ) + 100) / 200 = 1 := by norm_num
  rw [attackRating]
  push_cast
  rw [h]
  norm_num [roundHalfEven]

/-- A team whose two defence strengths are 100 has defence rating 1. -/
theorem defenceRating_of_100 (i : Nat) (nm : String) (a1 a2 : Int) :
    defenceRating ⟨i, nm, a1, a2, 100, 100⟩ = 1 := by
  have h : ((100 : ℚ) + 100) / 200 = 1 := by norm_num
  rw [defenceRating]
  push_cast
  rw [h]
  norm_num [roundHalfEven]

/-- Evaluation of the C6 scenario's rating rows. -/
theorem c6_ratings_eval : team_ratings c6Fixtures c6Teams = c6Ratings := by
  simp only [team_ratings, c6Teams, List.map_cons, List.map_nil,
    attackRating_of_100, defenceRating_of_100]
  decide

/-- The GD sort really sorts: its output is pairwise non-increasing in the
goal-difference key. -/
theorem sortByGD_sorted (rows : List RatingRow) :
    (sortByGD rows).Pairwise (fun a b => gdBot b ≤ gdBot a) := by
  haveI : IsTotal RatingRow (fun a b => gdBot b ≤ gdBot a) :=
    ⟨fun a b => le_total (gdBot b) (gdBot a)⟩
  haveI : IsTrans RatingRow (fun a b => gdBot b ≤ gdBot a) :=
    ⟨fun a b c hab hbc => le_trans hbc hab⟩
  exact List.sorted_insertionSort _ _

/-- C6: the aggregator uses only finished fixtures; every aggregate row has
`GD = scored - conceded`; every successfully displayed table is sorted
non-increasing in GD; and in the concrete scenario team A (home 3-1, away
0-2) gets scored 3, conceded 3, GD 0, team B (home 1-0) gets scored 1,
conceded 0, GD 1, and B ranks above A in the display. -/
theorem c6_team_goal_aggregation :
    (∀ fixtures, team_goals fixtures =
      team_goals (fixtures.filter (fun f => f.finished))) ∧
    (∀ fixtures teams r, r ∈ team_goals_merged fixtures teams →
      r.gd = r.goals_scored - r.goals_conceded) ∧
    (∀ fixtures teams out, team_ratings_display fixtures teams = Except.ok out →
      out.Pairwise (fun a b => b.gd ≤ a.gd)) ∧
    team_goals c6Fixtures = [⟨1, 3, 3⟩, ⟨2, 1, 0⟩, ⟨3, 3, 3⟩, ⟨4, 0, 1⟩] ∧
    team_ratings_display c6Fixtures c6Teams = Except.ok c6Display := by
  refine ⟨fun fixtures => ?_, fun fixtures teams r hr => ?_,
    fun fixtures teams out h => ?_, by decide, ?_⟩
  · have hc : completed_fixtures (fixtures.filter (fun f => f.finished))
        = completed_fixtures fixtures := by
      unfold completed_fixtures
      rw [List.filter_filter]
      exact List.filter_congr fun x _ => Bool.and_self _
    simp only [team_goals, all_stats, home_stats, away_stats, hc]
  · obtain ⟨r0, hr0, rfl⟩ := List.mem_map.mp hr
    rfl
  · unfold team_ratings_display at h
    by_cases hall : ((sortByGD (team_ratings fixtures teams)).all
        fun r => r.goals.isSome) = true
    · rw [if_pos hall, Except.ok.injEq] at h
      subst h
      rw [List.pairwise_map]
      simp only [List.all_eq_true] at hall
      refine (sortByGD_sorted (team_ratings fixtures teams)).imp_of_mem ?_
      intro a b ha hb hab
      obtain ⟨ga, hga⟩ := Option.isSome_iff_exists.mp (hall a ha)
      obtain ⟨gb, hgb⟩ := Option.isSome_iff_exists.mp (hall b hb)
      simp only [gdBot, hga, hgb] at hab
      simp only [displayRow, hga, hgb, Option.getD_some]
      exact_mod_cast hab
    · rw [if_neg hall] at h
      exact Except.noConfusion h
  · unfold team_ratings_display
    rw [c6_ratings_eval]
    have hc : ((sortByGD c6Ratings).all fun r => r.goals.isSome) = true := by decide
    rw [if_pos hc]
    exact congrArg Except.ok (by decide)

/-- Witness for C6 at the concrete scenario. -/
theorem c6_witness :
    team_goals c6Fixtures = team_goals (c6Fixtures.filter (fun f => f.finished)) ∧
    (⟨1, some "A", 3, 3, 0⟩ : GoalsRow).gd = 3 - 3 ∧
    c6Display.Pairwise (fun a b => b.gd ≤ a.gd) :=
  ⟨c6_team_goal_aggregation.1 c6Fixtures,
   c6_team_goal_aggregation.2.1 c6Fixtures c6Teams ⟨1, some "A", 3, 3, 0⟩ (by decide),
   c6_team_goal_aggregation.2.2.1 c6Fixtures c6Teams c6Display
     c6_team_goal_aggregation.2.2.2.2⟩

/-- C7: the team-rating view computes `Attack` and `Defence` by halving the
summed strengths, rounding to an integer, with `Overall = Attack - Defence`;
strengths (200, 200) and (100, 100) give Attack 2, Defence 1, Overall 1. -/
theorem c7_strength_rating_formula :
    (∀ t : Team,
      attackRating t = roundHalfEven
        (((t.strength_attack_home : ℚ) + (t.strength_attack_away : ℚ)) / 200) ∧
      defenceRating t = roundHalfEven
        (((t.strength_defence_home : ℚ) + (t.strength_defence_away : ℚ)) / 200)) ∧
    (∀ fixtures teams, (team_ratings fixtures teams).map RatingRow.overall =
      (team_ratings fixtures teams).map (fun r => r.attack - r.defence)) ∧
    attackRating ⟨1, "T", 200, 200, 100, 100⟩ = 2 ∧
    defenceRating ⟨1, "T", 200, 200, 100, 100⟩ = 1 ∧
    attackRating ⟨1, "T", 200, 200, 100, 100⟩ -
      defenceRating ⟨1, "T", 200, 200, 100, 100⟩ = 1 := by
  have ha : attackRating ⟨1, "T", 200, 200, 100, 100⟩ = 2 := by
    have h : ((200 : ℚ) + 200) / 200 = 2 := by norm_num
    rw [attackRating]
    push_cast
    rw [h]
    norm_num [roundHalfEven]
  have hd : defenceRating ⟨1, "T", 200, 200, 100, 100⟩ = 1 :=
    defenceRating_of_100 1 "T" 200 200
  refine ⟨fun t => ⟨rfl, rfl⟩, fun fixtures teams => ?_, ha, hd,
    by rw [ha, hd]; decide⟩
  simp [team_ratings, Function.comp]

/-- Witness for C10: rows `c10A` (index 0) and `c10B` (index 1) tie on
`ict_index`, and the earlier row is placed at an earlier output position. -/
theorem c10_witness :
    ∃ (q p : Nat)
      (hq : q < (nlargestIdx 10 (fun x => x.ict_index) [c10A, c10B]).length)
      (hp : p < (nlargestIdx 10 (fun x => x.ict_index) [c10A, c10B]).length),
      q < p ∧ (nlargestIdx 10 (fun x => x.ict_index) [c10A, c10B])[q] = (0, c10A) ∧
        (nlargestIdx 10 (fun x => x.ict_index) [c10A, c10B])[p] = (1, c10B) :=
  c10_stable_tie_break.2.2.2.2 (fun x => x.ict_index) 10 [c10A, c10B] 0 1
    (by decide) (by decide) (by decide) (by decide) (by decide)

end FPL
